import Mathlib

/-!
Verification of the ESP32 MQTT publish/subscribe sketch
(`src/esp32_mqtt_publish_subscribe.cpp`).

The sketch's state machine is shallowly embedded: GPIO pins are a function
from pin number to output level, MQTT publishes and subscriptions are
accumulated in lists, and the blocking loops (`reconnect()`, `loop()`) are
driven by explicit lists of external events (connection-attempt outcomes,
inbound messages).  Published payloads are kept as structured messages; the
JSON wire encoding used for relay status messages is modelled separately
(`serializeStatusChars` / `decodeStatusFields`).
-/

/-- Digital output level of a GPIO pin (Arduino `HIGH` / `LOW`). -/
inductive Level where
  | HIGH
  | LOW
deriving DecidableEq, Repr

/-- Command string `RELAY_00_COMMAND_ON` from the sketch. -/
def RELAY_00_COMMAND_ON : String := "relay 0 on"

/-- Command string `RELAY_00_COMMAND_OFF` from the sketch. -/
def RELAY_00_COMMAND_OFF : String := "relay 0 off"

/-- Command string `RELAY_01_COMMAND_ON` from the sketch. -/
def RELAY_01_COMMAND_ON : String := "relay 1 on"

/-- Command string `RELAY_01_COMMAND_OFF` from the sketch. -/
def RELAY_01_COMMAND_OFF : String := "relay 1 off"

/-- Command string `RELAY_02_COMMAND_ON` from the sketch. -/
def RELAY_02_COMMAND_ON : String := "relay 2 on"

/-- Command string `RELAY_02_COMMAND_OFF` from the sketch. -/
def RELAY_02_COMMAND_OFF : String := "relay 2 off"

/-- Command string `RELAY_03_COMMAND_ON` from the sketch. -/
def RELAY_03_COMMAND_ON : String := "relay 3 on"

/-- Command string `RELAY_03_COMMAND_OFF` from the sketch. -/
def RELAY_03_COMMAND_OFF : String := "relay 3 off"

/-- Relay identification enum value `Relay_00` (a C `int`). -/
def Relay_00 : Int := 0

/-- Relay identification enum value `Relay_01`. -/
def Relay_01 : Int := 1

/-- Relay identification enum value `Relay_02`. -/
def Relay_02 : Int := 2

/-- Relay identification enum value `Relay_03`. -/
def Relay_03 : Int := 3

/-- GPIO pin of relay 0 (`Relay_00_Pin = 26`). -/
def Relay_00_Pin : Nat := 26

/-- GPIO pin of relay 1 (`Relay_01_Pin = 25`). -/
def Relay_01_Pin : Nat := 25

/-- GPIO pin of relay 2 (`Relay_02_Pin = 27`). -/
def Relay_02_Pin : Nat := 27

/-- GPIO pin of relay 3 (`Relay_03_Pin = 14`). -/
def Relay_03_Pin : Nat := 14

/-- Telemetry topic constant from the sketch. -/
def topic_telemetry_data : String := "esp32/telemetry_data"

/-- Status topic of relay 0. -/
def topic_relay_00_status : String := "esp32/relay_00_status"

/-- Status topic of relay 1. -/
def topic_relay_01_status : String := "esp32/relay_01_status"

/-- Status topic of relay 2. -/
def topic_relay_02_status : String := "esp32/relay_02_status"

/-- Status topic of relay 3. -/
def topic_relay_03_status : String := "esp32/relay_03_status"

/-- Command topic constant from the sketch. -/
def topic_command : String := "esp32/command"

/-- Relay status value for an active relay (`relay_status_on = "1"`). -/
def relay_status_on : String := "1"

/-- Relay status value for an inactive relay (`relay_status_off = "0"`). -/
def relay_status_off : String := "0"

/-- Telemetry interval global `long interval = 5000` (milliseconds). -/
def interval : Int := 5000

/-- The relay status JSON document built by `update_relay_status`:
`deviceName`, `time`, `relayId`, `status` — exactly these four fields,
in this order. -/
structure StatusMessage where
  deviceName : String
  time : Nat
  relayId : Int
  status : String
deriving DecidableEq, Repr

/-- The telemetry JSON document built in `loop()`: `clientId`, `deviceName`,
`time`, `temperature`, `humidity`, `pressure`, `interval`, `counter`. -/
structure TelemetryMessage where
  clientId : String
  deviceName : String
  time : Nat
  temperature : Float
  humidity : Float
  pressure : Int
  interval : Int
  counter : Nat
deriving Repr

/-- A published MQTT payload: either a relay status document or a telemetry
document. -/
inductive Payload where
  | status (m : StatusMessage)
  | telemetry (m : TelemetryMessage)
deriving Repr

/-- Whether a payload is a relay status message. -/
def Payload.isStatus : Payload → Bool
  | .status _ => true
  | .telemetry _ => false

/-- Observable state of the sketch: the GPIO output bank, the log of MQTT
publishes (topic plus payload, in order), the subscription list, the MQTT
connection flag, the NTP epoch-time reading, the configured device name and
client id, the number of `Log.warning` diagnostics, and the globals
`counter`, `lastMessage` and the total time spent in `delay()`. -/
structure MachineState where
  pins : Nat → Level
  published : List (String × Payload)
  subscriptions : List String
  connected : Bool
  time : Nat
  deviceName : String
  clientId : String
  warnings : Nat
  counter : Nat
  lastMessage : Int
  delayedMs : Nat

/-- Arduino `digitalWrite(pin, level)`: drive one GPIO output. -/
def digitalWrite (s : MachineState) (pin : Nat) (level : Level) : MachineState :=
  { s with pins := Function.update s.pins pin level }

/-- PubSubClient `client.publish(topic, payload)`: append to the publish log. -/
def publishMsg (s : MachineState) (topic : String) (p : Payload) : MachineState :=
  { s with published := s.published ++ [(topic, p)] }

/-- `update_relay_status(relayId, status)` from the sketch: build the status
document from the configured device name, the current NTP epoch time, the
relay id and the given status string, then publish it on the relay's
dedicated topic.  The `switch (relayId)` has no `default` branch, so an
out-of-range `relayId` publishes nothing. -/
def update_relay_status (s : MachineState) (relayId : Int) (status : String) : MachineState :=
  let msg : StatusMessage :=
    { deviceName := s.deviceName, time := s.time, relayId := relayId, status := status }
  if relayId = Relay_00 then publishMsg s topic_relay_00_status (.status msg)
  else if relayId = Relay_01 then publishMsg s topic_relay_01_status (.status msg)
  else if relayId = Relay_02 then publishMsg s topic_relay_02_status (.status msg)
  else if relayId = Relay_03 then publishMsg s topic_relay_03_status (.status msg)
  else s

/-- MQTT `callback(topic, message, length)` from the sketch: on the command
topic, match the payload against the eight relay command strings; on a match
drive the matching relay pin (`LOW` = on, `HIGH` = off) and publish the new
relay status; otherwise `Log.warning("No command recognized")`, modelled as
incrementing the `warnings` counter.  Messages on any other topic are
ignored. -/
def callback (s : MachineState) (topic message : String) : MachineState :=
  if topic = topic_command then
    if message = RELAY_00_COMMAND_ON then
      update_relay_status (digitalWrite s Relay_00_Pin .LOW) Relay_00 relay_status_on
    else if message = RELAY_00_COMMAND_OFF then
      update_relay_status (digitalWrite s Relay_00_Pin .HIGH) Relay_00 relay_status_off
    else if message = RELAY_01_COMMAND_ON then
      update_relay_status (digitalWrite s Relay_01_Pin .LOW) Relay_01 relay_status_on
    else if message = RELAY_01_COMMAND_OFF then
      update_relay_status (digitalWrite s Relay_01_Pin .HIGH) Relay_01 relay_status_off
    else if message = RELAY_02_COMMAND_ON then
      update_relay_status (digitalWrite s Relay_02_Pin .LOW) Relay_02 relay_status_on
    else if message = RELAY_02_COMMAND_OFF then
      update_relay_status (digitalWrite s Relay_02_Pin .HIGH) Relay_02 relay_status_off
    else if message = RELAY_03_COMMAND_ON then
      update_relay_status (digitalWrite s Relay_03_Pin .LOW) Relay_03 relay_status_on
    else if message = RELAY_03_COMMAND_OFF then
      update_relay_status (digitalWrite s Relay_03_Pin .HIGH) Relay_03 relay_status_off
    else
      { s with warnings := s.warnings + 1 }
  else s

/-- Body of the successful `client.connect` branch inside `reconnect()`:
subscribe to the command topic, then publish an `off` status for each of the
four relays, in order. -/
def onConnectSuccess (s : MachineState) : MachineState :=
  let s1 := { s with connected := true, subscriptions := s.subscriptions ++ [topic_command] }
  let s2 := update_relay_status s1 Relay_00 relay_status_off
  let s3 := update_relay_status s2 Relay_01 relay_status_off
  let s4 := update_relay_status s3 Relay_02 relay_status_off
  update_relay_status s4 Relay_03 relay_status_off

/-- Arduino `delay(ms)`: accumulate blocking wait time. -/
def delayMs (s : MachineState) (ms : Nat) : MachineState :=
  { s with delayedMs := s.delayedMs + ms }

/-- `reconnect()` from the sketch, driven by the outcomes of the successive
`client.connect` attempts: `while (!client.connected())`, attempt to connect;
on success subscribe and publish the four `off` statuses; on failure
`delay(5000)` and retry.  The Boolean result records whether the supplied
attempt outcomes sufficed to leave the loop (`false` means the sketch is
still blocked inside the retry loop after consuming them all). -/
def reconnectRun : MachineState → List Bool → MachineState × Bool
  | s, [] => (s, s.connected)
  | s, a :: rest =>
    if s.connected then (s, true)
    else if a then reconnectRun (onConnectSuccess s) rest
    else reconnectRun (delayMs s 5000) rest

/-- External events consumed by one iteration of `loop()`: the NTP epoch
time after the update loop, the `millis()` reading, whether the transport is
still connected when polled, the connect-attempt outcomes available to a
blocking `reconnect()`, the inbound messages delivered by `client.loop()`,
and the BME280 sensor readings. -/
structure LoopInput where
  time : Nat
  now : Int
  stillConnected : Bool
  attempts : List Bool
  inbound : List (String × String)
  temperature : Float
  humidity : Float
  pressure : Int
deriving Repr

/-- One iteration of `loop()` from the sketch: refresh the NTP time, read
`millis()`, reconnect if the transport is disconnected (blocking), service
inbound messages via `client.loop()` (each synchronously dispatched to
`callback`), then publish a telemetry document when
`now - lastMessage > interval`, pre-incrementing `counter`.  Returns `none`
when the iteration never completes because the blocking `reconnect()` loop
exhausted the supplied attempt outcomes without connecting. -/
def loopStep (s : MachineState) (inp : LoopInput) : Option MachineState :=
  let s0 := { s with time := inp.time, connected := s.connected && inp.stillConnected }
  let r := if s0.connected then (s0, true) else reconnectRun s0 inp.attempts
  if r.2 then
    let s2 := inp.inbound.foldl (fun st m => callback st m.1 m.2) r.1
    if inp.now - s2.lastMessage > interval then
      some (publishMsg { s2 with lastMessage := inp.now, counter := s2.counter + 1 }
        topic_telemetry_data (.telemetry
          { clientId := s2.clientId, deviceName := s2.deviceName, time := s2.time,
            temperature := inp.temperature, humidity := inp.humidity,
            pressure := inp.pressure, interval := interval, counter := s2.counter + 1 }))
    else some s2
  else none

/-- Repeated `loop()` iterations. -/
def runLoop : MachineState → List LoopInput → Option MachineState
  | s, [] => some s
  | s, inp :: rest =>
    match loopStep s inp with
    | none => none
    | some s2 => runLoop s2 rest

/-- `setup()` from the sketch: all four relay pins are configured as outputs
and driven `HIGH` (relay off); the globals start at `counter = 0`,
`lastMessage = 0`, nothing published, MQTT client not yet connected.
`p0` is the power-on state of the GPIO bank. -/
def setup (p0 : Nat → Level) (deviceName clientId : String) : MachineState :=
  { pins := Function.update (Function.update (Function.update (Function.update p0
      Relay_00_Pin .HIGH) Relay_01_Pin .HIGH) Relay_02_Pin .HIGH) Relay_03_Pin .HIGH
  , published := []
  , subscriptions := []
  , connected := false
  , time := 0
  , deviceName := deviceName
  , clientId := clientId
  , warnings := 0
  , counter := 0
  , lastMessage := 0
  , delayedMs := 0 }

/-- Relay id (0..3) to its GPIO pin, following the `RelayPin` enum. -/
def relayPin : Nat → Nat
  | 0 => Relay_00_Pin
  | 1 => Relay_01_Pin
  | 2 => Relay_02_Pin
  | _ => Relay_03_Pin

/-- Relay id to its dedicated status topic. -/
def relayStatusTopic (i : Int) : String :=
  if i = 0 then topic_relay_00_status
  else if i = 1 then topic_relay_01_status
  else if i = 2 then topic_relay_02_status
  else if i = 3 then topic_relay_03_status
  else ""

/-- The eight valid command tokens of the dispatch table. -/
def validTokens : List String :=
  [RELAY_00_COMMAND_ON, RELAY_00_COMMAND_OFF,
   RELAY_01_COMMAND_ON, RELAY_01_COMMAND_OFF,
   RELAY_02_COMMAND_ON, RELAY_02_COMMAND_OFF,
   RELAY_03_COMMAND_ON, RELAY_03_COMMAND_OFF]

/-- Command token for relay `n`, `b = true` meaning on. -/
def commandToken (n : Nat) (b : Bool) : String :=
  match n, b with
  | 0, true => RELAY_00_COMMAND_ON
  | 0, false => RELAY_00_COMMAND_OFF
  | 1, true => RELAY_01_COMMAND_ON
  | 1, false => RELAY_01_COMMAND_OFF
  | 2, true => RELAY_02_COMMAND_ON
  | 2, false => RELAY_02_COMMAND_OFF
  | 3, true => RELAY_03_COMMAND_ON
  | 3, false => RELAY_03_COMMAND_OFF
  | _, _ => ""

/-- Sequence-counter values of the telemetry messages in a publish log, in
publish order. -/
def telemetryCounters (l : List (String × Payload)) : List Nat :=
  l.filterMap fun p =>
    match p.2 with
    | .telemetry m => some m.counter
    | .status _ => none

/-- Number of telemetry messages in a publish log. -/
def telemetryCount (l : List (String × Payload)) : Nat :=
  (telemetryCounters l).length

/-- The four `off` StatusMessages published by `reconnect()` right after a
successful connection, in order of relay id. -/
def fourOffStatus (deviceName : String) (time : Nat) : List (String × Payload) :=
  [(topic_relay_00_status,
     .status { deviceName := deviceName, time := time, relayId := 0, status := relay_status_off }),
   (topic_relay_01_status,
     .status { deviceName := deviceName, time := time, relayId := 1, status := relay_status_off }),
   (topic_relay_02_status,
     .status { deviceName := deviceName, time := time, relayId := 2, status := relay_status_off }),
   (topic_relay_03_status,
     .status { deviceName := deviceName, time := time, relayId := 3, status := relay_status_off })]

/-- Modelled from the spec: the JSON serializer collaborator (ArduinoJson,
not part of `src/`) escapes a character inside a JSON string: quote,
backslash and the control characters backspace, form feed, newline,
carriage return and tab get a backslash escape; every other character is
emitted as is. -/
def escChar (c : Char) : List Char :=
  if c = '"' then ['\\', '"']
  else if c = '\\' then ['\\', '\\']
  else if c = '\n' then ['\\', 'n']
  else if c = '\r' then ['\\', 'r']
  else if c = '\t' then ['\\', 't']
  else if c = Char.ofNat 8 then ['\\', 'b']
  else if c = Char.ofNat 12 then ['\\', 'f']
  else [c]

/-- JSON string escaping of a whole character list. -/
def escList : List Char → List Char
  | [] => []
  | c :: rest => escChar c ++ escList rest

/-- Meaning of a JSON backslash escape character. -/
def unescChar (c : Char) : Option Char :=
  if c = '"' then some '"'
  else if c = '\\' then some '\\'
  else if c = 'n' then some '\n'
  else if c = 'r' then some '\r'
  else if c = 't' then some '\t'
  else if c = 'b' then some (Char.ofNat 8)
  else if c = 'f' then some (Char.ofNat 12)
  else none

/-- Decimal digit character for a digit value. -/
def digitChar : Nat → Char
  | 0 => '0'
  | 1 => '1'
  | 2 => '2'
  | 3 => '3'
  | 4 => '4'
  | 5 => '5'
  | 6 => '6'
  | 7 => '7'
  | 8 => '8'
  | _ => '9'

/-- Fuel-driven digit printer: with enough fuel, peels decimal digits from
the least significant end. -/
def natCharsAux : Nat → Nat → List Char
  | 0, _ => []
  | fuel + 1, n =>
    if n < 10 then [digitChar n]
    else natCharsAux fuel (n / 10) ++ [digitChar (n % 10)]

/-- Decimal representation of a natural number, most significant digit
first (as the JSON serializer prints an unsigned integer). -/
def natChars (n : Nat) : List Char := natCharsAux (n + 1) n

/-- The printer's result does not depend on the fuel, once sufficient. -/
theorem natCharsAux_fuel (n : Nat) :
    ∀ f1 f2 : Nat, n < f1 → n < f2 → natCharsAux f1 n = natCharsAux f2 n := by
  induction n using Nat.strong_induction_on with
  | _ n ih =>
    intro f1 f2 h1 h2
    cases f1 with
    | zero => omega
    | succ g1 =>
      cases f2 with
      | zero => omega
      | succ g2 =>
        rw [natCharsAux, natCharsAux]
        split
        · rfl
        · rw [ih (n / 10) (Nat.div_lt_self (by omega) (by omega)) g1 g2 (by omega) (by omega)]

/-- The unfolding equation of `natChars` as direct recursion on the number. -/
theorem natChars_eq (n : Nat) :
    natChars n = if n < 10 then [digitChar n]
      else natChars (n / 10) ++ [digitChar (n % 10)] := by
  rw [natChars, natCharsAux]
  split
  · rfl
  · rw [natCharsAux_fuel (n / 10) n (n / 10 + 1)
      (Nat.div_lt_self (by omega) (by omega)) (by omega)]
    rfl

/-- Decimal representation of an integer (as the JSON serializer prints a
signed integer). -/
def intChars (i : Int) : List Char :=
  if i < 0 then '-' :: natChars i.natAbs else natChars i.toNat

/-- Literal JSON fragment opening the status document up to the value of
`deviceName`. -/
def kDev : List Char := "\x7b\"deviceName\":\"".data

/-- Literal JSON fragment between the `deviceName` value's closing quote and
the `time` value. -/
def kTime : List Char := ",\"time\":".data

/-- Literal JSON fragment between the `time` value and the `relayId` value,
without its leading comma. -/
def kRelayTail : List Char := "\"relayId\":".data

/-- Literal JSON fragment between the `time` value and the `relayId` value. -/
def kRelay : List Char := ',' :: kRelayTail

/-- Literal JSON fragment between the `relayId` value and the `status`
value, without its leading comma. -/
def kStatusTail : List Char := "\"status\":\"".data

/-- Literal JSON fragment between the `relayId` value and the `status`
value. -/
def kStatus : List Char := ',' :: kStatusTail

/-- Literal JSON fragment closing the status document after the `status`
value's closing quote. -/
def kEnd : List Char := "\x7d".data

/-- Modelled from the spec: the JSON text the serializer collaborator
produces for a relay status document — a JSON object with exactly the
fields `deviceName`, `time`, `relayId` and `status`, in the order the
sketch inserts them. -/
def serializeStatusChars (m : StatusMessage) : List Char :=
  kDev ++ escList m.deviceName.data ++ '"' :: kTime ++ natChars m.time
    ++ kRelay ++ intChars m.relayId ++ kStatus ++ escList m.status.data ++ '"' :: kEnd

/-- The serialized status document as a string. -/
def serializeStatus (m : StatusMessage) : String :=
  String.mk (serializeStatusChars m)

/-- `serializeJson(relayStatus, relayStatusAsJson)` writing into the
`char relayStatusAsJson[200]` buffer of `update_relay_status`: at most 199
characters are stored (the last byte holds the terminator); a longer
document is silently truncated. -/
def serializeStatusBuffered (m : StatusMessage) : List Char :=
  (serializeStatusChars m).take 199

/-- Consume an expected literal character sequence from the input. -/
def dropLit : List Char → List Char → Option (List Char)
  | [], l => some l
  | _ :: _, [] => none
  | c :: p, d :: l => if c = d then dropLit p l else none

/-- Modelled from the spec: a JSON decoder (no decoder exists in this
repository; downstream subscribers decode).  Parse a JSON string body up to
and including its closing quote, resolving backslash escapes; returns the
decoded characters and the rest of the input. -/
def parseJString : List Char → Option (List Char × List Char)
  | [] => none
  | c :: rest =>
    if c = '"' then some ([], rest)
    else if c = '\\' then
      match rest with
      | [] => none
      | e :: rest2 =>
        match unescChar e, parseJString rest2 with
        | some u, some (sr) => some (u :: sr.1, sr.2)
        | _, _ => none
    else
      match parseJString rest with
      | some (sr) => some (c :: sr.1, sr.2)
      | none => none

/-- Split the longest leading run of decimal digits off the input. -/
def spanDigits : List Char → List Char × List Char
  | [] => ([], [])
  | c :: l =>
    if c.isDigit then (c :: (spanDigits l).1, (spanDigits l).2)
    else ([], c :: l)

/-- Numeric value of a list of decimal digit characters. -/
def digitsVal (l : List Char) : Nat :=
  l.foldl (fun a c => 10 * a + (c.toNat - 48)) 0

/-- Parse a JSON unsigned integer. -/
def parseNatChars (l : List Char) : Option (Nat × List Char) :=
  if (spanDigits l).1 = [] then none
  else some (digitsVal (spanDigits l).1, (spanDigits l).2)

/-- Parse a JSON integer (optional leading minus sign). -/
def parseIntChars : List Char → Option (Int × List Char)
  | [] => none
  | c :: l =>
    if c = '-' then (parseNatChars l).map fun p => (-(p.1 : Int), p.2)
    else (parseNatChars (c :: l)).map fun p => ((p.1 : Int), p.2)

/-- Modelled from the spec: decode the JSON text of a relay status document,
recovering the `deviceName`, `time`, `relayId` and `status` fields; fails on
any text that is not exactly such a document. -/
def decodeStatusFields (l : List Char) : Option (String × Nat × Int × String) :=
  match dropLit kDev l with
  | none => none
  | some l1 =>
    match parseJString l1 with
    | none => none
    | some (dn, l2) =>
      match dropLit kTime l2 with
      | none => none
      | some l3 =>
        match parseNatChars l3 with
        | none => none
        | some (t, l4) =>
          match dropLit kRelay l4 with
          | none => none
          | some l5 =>
            match parseIntChars l5 with
            | none => none
            | some (rid, l6) =>
              match dropLit kStatus l6 with
              | none => none
              | some l7 =>
                match parseJString l7 with
                | none => none
                | some (st, l8) =>
                  match dropLit kEnd l8 with
                  | some [] => some (String.mk dn, t, rid, String.mk st)
                  | _ => none

/-- The `deviceName`, `relayId`, `status` triple recovered by the decoder. -/
def decodeStatusTriple (l : List Char) : Option (String × Int × String) :=
  (decodeStatusFields l).map fun q => (q.1, q.2.2.1, q.2.2.2)

/-- Consuming a literal off itself followed by anything succeeds. -/
theorem dropLit_append (p r : List Char) : dropLit p (p ++ r) = some r := by
  induction p with
  | nil => rfl
  | cons c t ih => rw [List.cons_append, dropLit, if_pos rfl, ih]

/-- Consuming a literal off exactly itself leaves nothing. -/
theorem dropLit_self (p : List Char) : dropLit p p = some [] := by
  have h := dropLit_append p []
  rwa [List.append_nil] at h

/-- A backslash escape step of the JSON string parser. -/
theorem parseJString_esc_step (e u : Char) (hu : unescChar e = some u)
    {l s r : List Char} (hl : parseJString l = some (s, r)) :
    parseJString ('\\' :: e :: l) = some (u :: s, r) := by
  rw [parseJString.eq_def]
  simp [hu, hl]

/-- A plain character step of the JSON string parser. -/
theorem parseJString_cons (c : Char) (h1 : c ≠ '"') (h2 : c ≠ '\\')
    {l s r : List Char} (hl : parseJString l = some (s, r)) :
    parseJString (c :: l) = some (c :: s, r) := by
  rw [parseJString.eq_def]
  simp [h1, h2, hl]

/-- Parsing an escaped character list followed by a closing quote recovers
the original characters and the rest of the input. -/
theorem parseJString_escList (s : List Char) :
    ∀ r : List Char, parseJString (escList s ++ '"' :: r) = some (s, r) := by
  induction s with
  | nil =>
    intro r
    rw [show escList [] ++ '"' :: r = '"' :: r from rfl, parseJString.eq_def]
    simp
  | cons c t ih =>
    intro r
    show parseJString (escChar c ++ escList t ++ '"' :: r) = some (c :: t, r)
    by_cases h1 : c = '"'
    · subst h1
      rw [show escChar '"' = ['\\', '"'] from rfl]
      exact parseJString_esc_step '"' '"' rfl (ih r)
    by_cases h2 : c = '\\'
    · subst h2
      rw [show escChar '\\' = ['\\', '\\'] from rfl]
      exact parseJString_esc_step '\\' '\\' rfl (ih r)
    by_cases h3 : c = '\n'
    · subst h3
      rw [show escChar '\n' = ['\\', 'n'] from rfl]
      exact parseJString_esc_step 'n' '\n' rfl (ih r)
    by_cases h4 : c = '\r'
    · subst h4
      rw [show escChar '\r' = ['\\', 'r'] from rfl]
      exact parseJString_esc_step 'r' '\r' rfl (ih r)
    by_cases h5 : c = '\t'
    · subst h5
      rw [show escChar '\t' = ['\\', 't'] from rfl]
      exact parseJString_esc_step 't' '\t' rfl (ih r)
    by_cases h6 : c = Char.ofNat 8
    · subst h6
      rw [show escChar (Char.ofNat 8) = ['\\', 'b'] from rfl]
      exact parseJString_esc_step 'b' (Char.ofNat 8) rfl (ih r)
    by_cases h7 : c = Char.ofNat 12
    · subst h7
      rw [show escChar (Char.ofNat 12) = ['\\', 'f'] from rfl]
      exact parseJString_esc_step 'f' (Char.ofNat 12) rfl (ih r)
    · rw [show escChar c = [c] by simp [escChar, h1, h2, h3, h4, h5, h6, h7]]
      exact parseJString_cons c h1 h2 (ih r)

/-- Every character `digitChar` produces is a decimal digit. -/
theorem digitChar_isDigit (d : Nat) : (digitChar d).isDigit = true := by
  unfold digitChar
  split <;> decide

/-- For digit values below ten, `digitChar` round-trips through the
character code. -/
theorem digitChar_val (d : Nat) (h : d < 10) : (digitChar d).toNat - 48 = d := by
  interval_cases d <;> decide

/-- Every character of a decimal representation is a digit. -/
theorem natChars_isDigit (n : Nat) : ∀ c ∈ natChars n, c.isDigit = true := by
  induction n using Nat.strong_induction_on with
  | _ n ih =>
    rw [natChars_eq]
    split
    · intro c hc
      rw [List.mem_singleton] at hc
      subst hc
      exact digitChar_isDigit n
    · intro c hc
      rcases List.mem_append.1 hc with h1 | h2
      · exact ih (n / 10) (Nat.div_lt_self (by omega) (by omega)) c h1
      · rw [List.mem_singleton] at h2
        subst h2
        exact digitChar_isDigit (n % 10)

/-- A decimal representation is never empty. -/
theorem natChars_ne_nil (n : Nat) : natChars n ≠ [] := by
  rw [natChars_eq]
  split
  · simp
  · simp

/-- Folding the digit-value accumulator over a decimal representation
recovers the number (scaled into the accumulator). -/
theorem foldl_natChars (n : Nat) :
    ∀ a : Nat, (natChars n).foldl (fun a c => 10 * a + (c.toNat - 48)) a
      = a * 10 ^ (natChars n).length + n := by
  induction n using Nat.strong_induction_on with
  | _ n ih =>
    intro a
    rw [natChars_eq]
    split
    · next h =>
      simp [digitChar_val n h]
      ring
    · next h =>
      rw [List.foldl_append, List.length_append,
        ih (n / 10) (Nat.div_lt_self (by omega) (by omega)) a]
      simp [digitChar_val (n % 10) (Nat.mod_lt n (by omega))]
      rw [pow_succ]
      have := Nat.div_add_mod n 10
      ring_nf
      omega

/-- The digit value of a decimal representation is the represented
number. -/
theorem digitsVal_natChars (n : Nat) : digitsVal (natChars n) = n := by
  have h := foldl_natChars n 0
  simpa [digitsVal] using h

/-- `spanDigits` splits an all-digit block off the head of the input when
the following character is not a digit. -/
theorem spanDigits_append (d : List Char) (hd : ∀ c ∈ d, c.isDigit = true)
    (c0 : Char) (h0 : c0.isDigit = false) (r : List Char) :
    spanDigits (d ++ c0 :: r) = (d, c0 :: r) := by
  induction d with
  | nil =>
    rw [List.nil_append, spanDigits, h0]
    simp
  | cons c t ih =>
    have hc : c.isDigit = true := hd c (by simp)
    rw [List.cons_append, spanDigits, hc]
    have ht := ih fun x hx => hd x (by simp [hx])
    rw [ht]
    simp

/-- Parsing a decimal representation followed by a non-digit recovers the
number. -/
theorem parseNatChars_natChars (n : Nat) (c0 : Char) (h0 : c0.isDigit = false)
    (r : List Char) :
    parseNatChars (natChars n ++ c0 :: r) = some (n, c0 :: r) := by
  rw [parseNatChars, spanDigits_append (natChars n) (natChars_isDigit n) c0 h0 r]
  simp [natChars_ne_nil n, digitsVal_natChars n]

/-- Parsing a signed decimal representation followed by a non-digit,
non-sign character recovers the integer. -/
theorem parseIntChars_intChars (i : Int) (c0 : Char) (h0 : c0.isDigit = false)
    (r : List Char) :
    parseIntChars (intChars i ++ c0 :: r) = some (i, c0 :: r) := by
  rw [intChars]
  split
  · next hneg =>
    rw [List.cons_append, parseIntChars, if_pos rfl,
      parseNatChars_natChars i.natAbs c0 h0 r]
    have habs : ((i.natAbs : Int)) = -i := by omega
    simp [habs]
  · next hpos =>
    obtain ⟨c, t, hct⟩ := List.exists_cons_of_ne_nil (natChars_ne_nil i.toNat)
    have hcdig : c.isDigit = true := by
      apply natChars_isDigit i.toNat
      rw [hct]
      simp
    have hcm : ¬ c = '-' := by
      intro hc
      rw [hc] at hcdig
      simp at hcdig
    rw [hct, List.cons_append, parseIntChars, if_neg hcm, ← List.cons_append, ← hct,
      parseNatChars_natChars i.toNat c0 h0 r]
    have htn : ((i.toNat : Int)) = i := by omega
    simp [htn]

/-- Matching head characters step of `dropLit`. -/
theorem dropLit_cons (c : Char) (p l : List Char) :
    dropLit (c :: p) (c :: l) = dropLit p l := by
  rw [dropLit, if_pos rfl]

/-- Decoding the full serialized JSON text of a status document recovers all
four fields exactly. -/
theorem decodeStatusFields_serialize (m : StatusMessage) :
    decodeStatusFields (serializeStatusChars m)
      = some (m.deviceName, m.time, m.relayId, m.status) := by
  have hc1 : (',' : Char).isDigit = false := by decide
  simp only [serializeStatusChars, decodeStatusFields, kRelay, kStatus,
    List.cons_append, List.append_assoc, dropLit_append, dropLit_cons, dropLit_self,
    parseJString_escList, parseNatChars_natChars, parseIntChars_intChars, hc1]

/-- A sample machine state used to instantiate hypothesis-bearing theorems:
all pins high, nothing published, connected, with a concrete device name,
client id and NTP time. -/
def exState : MachineState :=
  { pins := fun _ => Level.HIGH
  , published := []
  , subscriptions := [topic_command]
  , connected := true
  , time := 1700000000
  , deviceName := "esp32-device"
  , clientId := "esp32-client-ab12"
  , warnings := 0
  , counter := 0
  , lastMessage := 0
  , delayedMs := 0 }

/-- C1: for each of the 8 valid command tokens ("relay N on"/"relay N off",
N in 0..3) received on `esp32/command`, the dispatcher drives exactly the
intended relay's pin to the intended level (on = `LOW`, off = `HIGH`),
leaves the other three relay pins unchanged, and publishes exactly one
StatusMessage to that relay's status topic carrying the matching status
value. -/
theorem c1_command_dispatch (n : Nat) (hn : n < 4) (b : Bool) (s : MachineState) :
    (callback s topic_command (commandToken n b)).pins (relayPin n)
        = (if b then Level.LOW else Level.HIGH)
    ∧ (∀ m : Nat, m < 4 → m ≠ n →
        (callback s topic_command (commandToken n b)).pins (relayPin m) = s.pins (relayPin m))
    ∧ (callback s topic_command (commandToken n b)).published
        = s.published ++ [(relayStatusTopic ((n : Nat) : Int),
            Payload.status
              { deviceName := s.deviceName, time := s.time,
                relayId := ((n : Nat) : Int),
                status := if b then relay_status_on else relay_status_off })] := by
  interval_cases n <;> cases b <;>
    refine ⟨?_, fun m hm hne => ?_, ?_⟩ <;>
    try interval_cases m <;> try omega
  all_goals
    simp_all [callback, commandToken, update_relay_status, digitalWrite, publishMsg,
      relayPin, relayStatusTopic, topic_command,
      RELAY_00_COMMAND_ON, RELAY_00_COMMAND_OFF, RELAY_01_COMMAND_ON, RELAY_01_COMMAND_OFF,
      RELAY_02_COMMAND_ON, RELAY_02_COMMAND_OFF, RELAY_03_COMMAND_ON, RELAY_03_COMMAND_OFF,
      Relay_00, Relay_01, Relay_02, Relay_03,
      Relay_00_Pin, Relay_01_Pin, Relay_02_Pin, Relay_03_Pin,
      relay_status_on, relay_status_off, Function.update]

/-- Witness for C1: the scenario "relay 2 on" drives pin 27 low, leaves the
other relay pins alone, and publishes one "1" status to the relay-2 topic. -/
theorem c1_command_dispatch_witness :
    2 < 4 ∧
    ((callback exState topic_command (commandToken 2 true)).pins (relayPin 2)
        = (if true then Level.LOW else Level.HIGH)
    ∧ (∀ m : Nat, m < 4 → m ≠ 2 →
        (callback exState topic_command (commandToken 2 true)).pins (relayPin m)
          = exState.pins (relayPin m))
    ∧ (callback exState topic_command (commandToken 2 true)).published
        = exState.published ++ [(relayStatusTopic ((2 : Nat) : Int),
            Payload.status
              { deviceName := exState.deviceName, time := exState.time,
                relayId := ((2 : Nat) : Int),
                status := if true then relay_status_on else relay_status_off })]) :=
  ⟨by omega, c1_command_dispatch 2 (by omega) true exState⟩

/-- C2: a payload on the command topic that matches none of the 8 command
tokens (exact, case-sensitive comparison) changes nothing except emitting
one diagnostic warning: no pin write, no publish. -/
theorem c2_unrecognized_command (s : MachineState) (msg : String)
    (h : msg ∉ validTokens) :
    callback s topic_command msg = { s with warnings := s.warnings + 1 } := by
  have h1 : ¬ msg = RELAY_00_COMMAND_ON := fun he => h (by rw [he]; simp [validTokens])
  have h2 : ¬ msg = RELAY_00_COMMAND_OFF := fun he => h (by rw [he]; simp [validTokens])
  have h3 : ¬ msg = RELAY_01_COMMAND_ON := fun he => h (by rw [he]; simp [validTokens])
  have h4 : ¬ msg = RELAY_01_COMMAND_OFF := fun he => h (by rw [he]; simp [validTokens])
  have h5 : ¬ msg = RELAY_02_COMMAND_ON := fun he => h (by rw [he]; simp [validTokens])
  have h6 : ¬ msg = RELAY_02_COMMAND_OFF := fun he => h (by rw [he]; simp [validTokens])
  have h7 : ¬ msg = RELAY_03_COMMAND_ON := fun he => h (by rw [he]; simp [validTokens])
  have h8 : ¬ msg = RELAY_03_COMMAND_OFF := fun he => h (by rw [he]; simp [validTokens])
  rw [callback, if_pos rfl, if_neg h1, if_neg h2, if_neg h3, if_neg h4,
    if_neg h5, if_neg h6, if_neg h7, if_neg h8]

/-- Witness for C2: the malformed payload "relay 9 on" only logs a warning. -/
theorem c2_unrecognized_command_witness :
    "relay 9 on" ∉ validTokens ∧
    callback exState topic_command "relay 9 on"
      = { exState with warnings := exState.warnings + 1 } :=
  ⟨by decide, c2_unrecognized_command exState "relay 9 on" (by decide)⟩

/-- Appending a relay status publish leaves the telemetry counter trace
unchanged. -/
theorem telemetryCounters_append_status (l : List (String × Payload))
    (t : String) (m : StatusMessage) :
    telemetryCounters (l ++ [(t, Payload.status m)]) = telemetryCounters l := by
  simp [telemetryCounters, List.filterMap_append]

/-- Appending a telemetry publish appends its counter to the trace. -/
theorem telemetryCounters_append_telemetry (l : List (String × Payload))
    (t : String) (m : TelemetryMessage) :
    telemetryCounters (l ++ [(t, Payload.telemetry m)]) = telemetryCounters l ++ [m.counter] := by
  simp [telemetryCounters, List.filterMap_append]

/-- What the success branch of `reconnect()` does to the state, in one
equation: set the connected flag, append the command-topic subscription and
append the four `off` status publishes. -/
theorem onConnectSuccess_spec (s : MachineState) :
    onConnectSuccess s
      = { s with
            connected := true,
            subscriptions := s.subscriptions ++ [topic_command],
            published := s.published ++ fourOffStatus s.deviceName s.time } := by
  simp [onConnectSuccess, update_relay_status, publishMsg, fourOffStatus,
    Relay_00, Relay_01, Relay_02, Relay_03]

/-- A `reconnect()` call on an already-connected client does nothing. -/
theorem reconnectRun_connected (s : MachineState) (att : List Bool)
    (h : s.connected = true) : reconnectRun s att = (s, true) := by
  cases att with
  | nil => simp [reconnectRun, h]
  | cons a rest => simp [reconnectRun, h]

/-- When every supplied connect attempt fails, `reconnect()` consumes them
all, delaying 5000 ms per failure, changes nothing else, and is still
blocked (never abandons). -/
theorem reconnectRun_all_fail (att : List Bool) :
    ∀ s : MachineState, (∀ a ∈ att, a = false) → s.connected = false →
      reconnectRun s att = ({ s with delayedMs := s.delayedMs + 5000 * att.length }, false) := by
  induction att with
  | nil =>
    intro s _ hc
    rw [reconnectRun]
    conv_lhs => rw [hc]
    rfl
  | cons a rest ih =>
    intro s h hc
    have ha : a = false := h a (by simp)
    subst ha
    rw [reconnectRun, if_neg (by simp [hc]), if_neg (by simp)]
    rw [ih (delayMs s 5000) (fun x hx => h x (by simp [hx])) (by simp [delayMs, hc])]
    simp only [delayMs, List.length_cons, Prod.mk.injEq, MachineState.mk.injEq, and_true, true_and]
    omega

/-- When the attempt outcomes reach a success, `reconnect()` ends connected,
having appended exactly the command-topic subscription and the four `off`
status publishes, and leaving the pins, counters and configuration alone. -/
theorem reconnectRun_success (att : List Bool) :
    ∀ s s' : MachineState, s.connected = false → reconnectRun s att = (s', true) →
      s'.published = s.published ++ fourOffStatus s.deviceName s.time
      ∧ s'.subscriptions = s.subscriptions ++ [topic_command]
      ∧ s'.connected = true
      ∧ s'.pins = s.pins
      ∧ s'.counter = s.counter
      ∧ s'.lastMessage = s.lastMessage
      ∧ s'.time = s.time
      ∧ s'.deviceName = s.deviceName
      ∧ s'.clientId = s.clientId
      ∧ s'.warnings = s.warnings := by
  induction att with
  | nil =>
    intro s s' hc h
    rw [reconnectRun, hc] at h
    simp [Prod.ext_iff] at h
  | cons a rest ih =>
    intro s s' hc h
    rw [reconnectRun, if_neg (by simp [hc])] at h
    cases a with
    | true =>
      rw [if_pos rfl] at h
      rw [reconnectRun_connected _ rest (by simp [onConnectSuccess_spec])] at h
      have hs : s' = onConnectSuccess s := by
        have := congrArg Prod.fst h
        simpa using this.symm
      subst hs
      simp [onConnectSuccess_spec]
    | false =>
      rw [if_neg (by simp)] at h
      have hd := ih (delayMs s 5000) s' (by simp [delayMs, hc]) h
      simpa [delayMs] using hd

/-- `reconnect()` never touches the GPIO outputs, whatever the attempt
outcomes. -/
theorem reconnectRun_pins (att : List Bool) :
    ∀ s : MachineState, (reconnectRun s att).1.pins = s.pins := by
  induction att with
  | nil => intro s; rfl
  | cons a rest ih =>
    intro s
    rw [reconnectRun]
    split
    · rfl
    · split
      · rw [ih]
        simp [onConnectSuccess_spec]
      · rw [ih]
        rfl

/-- `reconnect()` preserves the counter, the telemetry trace, the telemetry
timer and the configuration, whatever the attempt outcomes. -/
theorem reconnectRun_preserve (att : List Bool) :
    ∀ s : MachineState,
      (reconnectRun s att).1.counter = s.counter
      ∧ (reconnectRun s att).1.lastMessage = s.lastMessage
      ∧ telemetryCounters (reconnectRun s att).1.published = telemetryCounters s.published
      ∧ (reconnectRun s att).1.time = s.time
      ∧ (reconnectRun s att).1.deviceName = s.deviceName
      ∧ (reconnectRun s att).1.clientId = s.clientId := by
  induction att with
  | nil => intro s; exact ⟨rfl, rfl, rfl, rfl, rfl, rfl⟩
  | cons a rest ih =>
    intro s
    rw [reconnectRun]
    split
    · exact ⟨rfl, rfl, rfl, rfl, rfl, rfl⟩
    · split
      · obtain ⟨h1, h2, h3, h4, h5, h6⟩ := ih (onConnectSuccess s)
        rw [h1, h2, h3, h4, h5, h6]
        simp [onConnectSuccess_spec, fourOffStatus, telemetryCounters, List.filterMap_append]
      · have h := ih (delayMs s 5000)
        simpa [delayMs] using h

/-- A list of pure status publishes contributes nothing to the telemetry
counter trace. -/
theorem telemetryCounters_nil_of_status (l : List (String × Payload))
    (h : ∀ x ∈ l, Payload.isStatus x.2 = true) : telemetryCounters l = [] := by
  induction l with
  | nil => rfl
  | cons x rest ih =>
    have hx := h x (by simp)
    cases hp : x.2 with
    | status m =>
      simp [telemetryCounters, hp]
      have := ih fun y hy => h y (by simp [hy])
      simpa [telemetryCounters] using this
    | telemetry m =>
      rw [hp] at hx
      simp [Payload.isStatus] at hx

/-- `update_relay_status` only ever appends status publishes. -/
theorem update_relay_status_shape (s : MachineState) (i : Int) (st : String) :
    ∃ l, update_relay_status s i st = { s with published := s.published ++ l }
      ∧ (∀ x ∈ l, Payload.isStatus x.2 = true) := by
  unfold update_relay_status publishMsg
  repeat' split
  all_goals first
    | exact ⟨_, rfl, by simp [Payload.isStatus]⟩
    | exact ⟨[], by simp, by simp⟩

/-- A matched command branch of `callback` appends status publishes and
touches only pins and warnings besides. -/
theorem callback_branch_shape (s : MachineState) (pin : Nat) (lv : Level) (i : Int)
    (st : String) :
    ∃ l pins2 w, update_relay_status (digitalWrite s pin lv) i st
        = { s with published := s.published ++ l, pins := pins2, warnings := w }
      ∧ (∀ x ∈ l, Payload.isStatus x.2 = true) := by
  obtain ⟨l, he, hl⟩ := update_relay_status_shape (digitalWrite s pin lv) i st
  exact ⟨l, _, _, he, hl⟩

/-- `callback` appends only status publishes and modifies only pins and
warnings besides the publish log. -/
theorem callback_shape (s : MachineState) (t m : String) :
    ∃ l pins2 w, callback s t m
        = { s with published := s.published ++ l, pins := pins2, warnings := w }
      ∧ (∀ x ∈ l, Payload.isStatus x.2 = true) := by
  unfold callback
  repeat' split
  all_goals first
    | exact callback_branch_shape s _ _ _ _
    | (refine ⟨[], s.pins, s.warnings + 1, ?_, by simp⟩
       rw [List.append_nil]
       all_goals rfl)
    | (refine ⟨[], s.pins, s.warnings, ?_, by simp⟩
       rw [List.append_nil]
       all_goals rfl)

/-- Servicing a whole inbound queue through `callback` appends only status
publishes and modifies only pins and warnings besides. -/
theorem foldlCallback_shape (inb : List (String × String)) :
    ∀ s : MachineState, ∃ l pins2 w,
      inb.foldl (fun st m => callback st m.1 m.2) s
        = { s with published := s.published ++ l, pins := pins2, warnings := w }
      ∧ (∀ x ∈ l, Payload.isStatus x.2 = true) := by
  induction inb with
  | nil => intro s; exact ⟨[], s.pins, s.warnings, by simp, by simp⟩
  | cons p rest ih =>
    intro s
    obtain ⟨l1, p1, w1, he1, hl1⟩ := callback_shape s p.1 p.2
    obtain ⟨l2, p2, w2, he2, hl2⟩ := ih (callback s p.1 p.2)
    refine ⟨l1 ++ l2, p2, w2, ?_, ?_⟩
    · rw [List.foldl_cons, he2, he1]
      simp
    · intro x hx
      rcases List.mem_append.1 hx with hx1 | hx2
      · exact hl1 x hx1
      · exact hl2 x hx2


/-- Decomposition of a completed `loop()` iteration: there is an
intermediate state `sb` (after reconnecting and servicing inbound commands)
that preserves the telemetry counter, the telemetry timer and the telemetry
trace of the entry state, and the iteration result is `sb` plus exactly one
telemetry publish when `now - lastMessage > interval` fires, `sb` alone
otherwise. -/
theorem loopStep_shape (s : MachineState) (inp : LoopInput) (s2 : MachineState)
    (h : loopStep s inp = some s2) :
    ∃ sb : MachineState,
      sb.counter = s.counter
      ∧ sb.lastMessage = s.lastMessage
      ∧ telemetryCounters sb.published = telemetryCounters s.published
      ∧ (if inp.now - s.lastMessage > interval
          then s2 = publishMsg { sb with lastMessage := inp.now, counter := sb.counter + 1 }
              topic_telemetry_data (Payload.telemetry
                { clientId := sb.clientId, deviceName := sb.deviceName, time := sb.time,
                  temperature := inp.temperature, humidity := inp.humidity,
                  pressure := inp.pressure, interval := interval, counter := sb.counter + 1 })
          else s2 = sb) := by
  simp only [loopStep] at h
  set s0 : MachineState := { s with time := inp.time, connected := s.connected && inp.stillConnected } with hs0
  rcases hr : (if s0.connected = true then (s0, true) else reconnectRun s0 inp.attempts) with ⟨r1, ok⟩
  rw [hr] at h
  have hr1 : r1.counter = s.counter ∧ r1.lastMessage = s.lastMessage
      ∧ telemetryCounters r1.published = telemetryCounters s.published := by
    by_cases hc0 : s0.connected = true
    · rw [if_pos hc0] at hr
      have hre : r1 = s0 := by
        have hfst := congrArg Prod.fst hr
        simpa using hfst.symm
      subst hre
      exact ⟨rfl, rfl, rfl⟩
    · rw [if_neg hc0] at hr
      obtain ⟨hp1, hp2, hp3, _, _, _⟩ := reconnectRun_preserve inp.attempts s0
      rw [hr] at hp1 hp2 hp3
      exact ⟨hp1, hp2, hp3⟩
  obtain ⟨hc1, hc2, hc3⟩ := hr1
  cases ok with
  | false => simp at h
  | true =>
    simp only [if_true] at h
    obtain ⟨l, p2, w2, hfe, hfl⟩ := foldlCallback_shape inp.inbound r1
    have hlast : (inp.inbound.foldl (fun st m => callback st m.1 m.2) r1).lastMessage
        = s.lastMessage := by
      rw [hfe]
      exact hc2
    rw [hlast] at h
    refine ⟨inp.inbound.foldl (fun st m => callback st m.1 m.2) r1, ?_, ?_, ?_, ?_⟩
    · rw [hfe]
      exact hc1
    · exact hlast
    · rw [hfe]
      simp only [telemetryCounters, List.filterMap_append]
      have hnil : telemetryCounters l = [] := telemetryCounters_nil_of_status l hfl
      simp only [telemetryCounters] at hnil
      rw [hnil, List.append_nil]
      exact hc3
    · by_cases hgate : inp.now - s.lastMessage > interval
      · rw [if_pos hgate] at h ⊢
        rw [Option.some_inj] at h
        exact h.symm
      · rw [if_neg hgate] at h ⊢
        rw [Option.some_inj] at h
        exact h.symm

/-- A disconnected variant of the sample state. -/
def exDisc : MachineState := { exState with connected := false }

/-- The sample state right after a successful reconnection. -/
def exDisc2 : MachineState := onConnectSuccess exDisc

/-- C3: after every successful (re)connection, the sketch subscribes to the
command topic and publishes exactly 4 status messages, one per relay id
0,1,2,3, each reporting off ("0"); and in a loop iteration that had to
reconnect, those four publishes precede everything else the iteration
publishes. -/
theorem c3_post_reconnect :
    (∀ (s : MachineState) (att : List Bool) (s' : MachineState),
        s.connected = false → reconnectRun s att = (s', true) →
          s'.published = s.published ++ fourOffStatus s.deviceName s.time
          ∧ s'.subscriptions = s.subscriptions ++ [topic_command])
    ∧ (∀ (s : MachineState) (inp : LoopInput) (s2 : MachineState),
        (s.connected && inp.stillConnected) = false → loopStep s inp = some s2 →
          (s.published ++ fourOffStatus s.deviceName inp.time) <+: s2.published) := by
  constructor
  · intro s att s' hc h
    obtain ⟨h1, h2, _⟩ := reconnectRun_success att s s' hc h
    exact ⟨h1, h2⟩
  · intro s inp s2 hcf h
    simp only [loopStep] at h
    set s0 : MachineState := { s with time := inp.time, connected := s.connected && inp.stillConnected } with hs0
    have hc0 : s0.connected = false := hcf
    rcases hr : (if s0.connected = true then (s0, true) else reconnectRun s0 inp.attempts) with ⟨r1, ok⟩
    rw [hr] at h
    have hcond : ¬(s0.connected = true) := by rw [hc0]; simp
    rw [if_neg hcond] at hr
    cases ok with
    | false => simp at h
    | true =>
      simp only [if_true] at h
      obtain ⟨hpub, _, _, _, _, _, _, _, _, _⟩ := reconnectRun_success inp.attempts s0 r1 hc0 hr
      obtain ⟨l, p2, w2, hfe, _⟩ := foldlCallback_shape inp.inbound r1
      have hsb : (inp.inbound.foldl (fun st m => callback st m.1 m.2) r1).published
          = (s.published ++ fourOffStatus s.deviceName inp.time) ++ l := by
        rw [hfe]
        dsimp only
        rw [hpub]
      have h1 : (s.published ++ fourOffStatus s.deviceName inp.time)
          <+: (inp.inbound.foldl (fun st m => callback st m.1 m.2) r1).published :=
        ⟨l, hsb.symm⟩
      split at h
      · rw [Option.some_inj] at h
        subst h
        refine h1.trans ?_
        simp only [publishMsg]
        exact List.prefix_append _ _
      · rw [Option.some_inj] at h
        subst h
        exact h1

/-- Witness for C3: a concrete disconnected state reconnecting on the first
attempt publishes the four off statuses and subscribes. -/
theorem c3_post_reconnect_witness :
    (exDisc.connected = false ∧ reconnectRun exDisc [true] = (exDisc2, true))
    ∧ (exDisc2.published = exDisc.published ++ fourOffStatus exDisc.deviceName exDisc.time
       ∧ exDisc2.subscriptions = exDisc.subscriptions ++ [topic_command]) :=
  ⟨⟨rfl, rfl⟩, c3_post_reconnect.1 exDisc [true] exDisc2 rfl rfl⟩

/-- C8: while the transport is disconnected the supervisor blocks in the
retry loop — after any number of failed attempts it has waited a fixed
5000 ms per failure, changed nothing else, and is still retrying (it never
abandons); and a loop iteration whose reconnect never succeeds completes no
other activity (no command processing, no telemetry). -/
theorem c8_blocking_reconnect :
    (∀ (s : MachineState) (att : List Bool),
        (∀ a ∈ att, a = false) → s.connected = false →
          reconnectRun s att
            = ({ s with delayedMs := s.delayedMs + 5000 * att.length }, false))
    ∧ (∀ (s : MachineState) (inp : LoopInput),
        (s.connected && inp.stillConnected) = false →
        (∀ a ∈ inp.attempts, a = false) → loopStep s inp = none) := by
  constructor
  · intro s att hall hc
    exact reconnectRun_all_fail att s hall hc
  · intro s inp hcf hall
    simp only [loopStep]
    have hcond : ¬(s.connected && inp.stillConnected) = true := by rw [hcf]; simp
    rw [if_neg hcond]
    rw [reconnectRun_all_fail inp.attempts
      { s with time := inp.time, connected := s.connected && inp.stillConnected } hall hcf]
    simp

/-- Input for a loop iteration that stays disconnected: one failing connect
attempt. -/
def exInpFail : LoopInput :=
  { time := 1700000001, now := 6000, stillConnected := false, attempts := [false],
    inbound := [], temperature := 0, humidity := 0, pressure := 0 }

/-- Witness for C8: two failed attempts block for 10000 ms and change
nothing; the surrounding loop iteration never completes. -/
theorem c8_blocking_reconnect_witness :
    (∀ a ∈ ([false, false] : List Bool), a = false)
    ∧ exDisc.connected = false
    ∧ reconnectRun exDisc [false, false]
        = ({ exDisc with
              delayedMs := exDisc.delayedMs + 5000 * ([false, false] : List Bool).length },
           false)
    ∧ ((exDisc.connected && exInpFail.stillConnected) = false
       ∧ loopStep exDisc exInpFail = none) :=
  ⟨by decide, rfl, c8_blocking_reconnect.1 exDisc [false, false] (by decide) rfl,
   rfl, c8_blocking_reconnect.2 exDisc exInpFail rfl (by decide)⟩

/-- C4 (amended): on every successful (re)connection the four relay
statuses are re-reported as off — the reported state (mirror) is reset and
not persisted — but the physical outputs are left exactly as they were;
the relay pins are driven to off (`HIGH`) only in `setup()`. -/
theorem c4_reconnect_reports_off_outputs_unchanged :
    (∀ (s : MachineState) (att : List Bool), (reconnectRun s att).1.pins = s.pins)
    ∧ (∀ (s : MachineState) (att : List Bool) (s' : MachineState),
        s.connected = false → reconnectRun s att = (s', true) →
          s'.published = s.published ++ fourOffStatus s.deviceName s.time)
    ∧ (∀ (p0 : Nat → Level) (dn cid : String),
        (setup p0 dn cid).pins Relay_00_Pin = Level.HIGH
        ∧ (setup p0 dn cid).pins Relay_01_Pin = Level.HIGH
        ∧ (setup p0 dn cid).pins Relay_02_Pin = Level.HIGH
        ∧ (setup p0 dn cid).pins Relay_03_Pin = Level.HIGH) := by
  refine ⟨fun s att => reconnectRun_pins att s,
    fun s att s' hc h => (reconnectRun_success att s s' hc h).1,
    fun p0 dn cid => ?_⟩
  refine ⟨?_, ?_, ?_, ?_⟩ <;>
    simp [setup, Relay_00_Pin, Relay_01_Pin, Relay_02_Pin, Relay_03_Pin, Function.update]

/-- A state in which relay 2 was switched on after `setup()`, and the
transport then dropped. -/
def c4State : MachineState :=
  { callback (setup (fun _ => Level.LOW) "esp32-device" "esp32-client-ab12")
      topic_command RELAY_02_COMMAND_ON with
    connected := false }

/-- Counterexample to C4 as stated: after a successful reconnection the
physical output of relay 2 is still `LOW` (on) — `reconnect()` does not
initialize the outputs to off (`HIGH`); only the reported status says "0". -/
theorem c4_counterexample :
    (reconnectRun c4State [true]).2 = true
    ∧ (reconnectRun c4State [true]).1.pins Relay_02_Pin = Level.LOW
    ∧ Level.LOW ≠ Level.HIGH := by
  refine ⟨rfl, ?_, by decide⟩
  rfl

/-- Witness for C4 (amended): pins preserved across a reconnect, four off
statuses published, and `setup()` drives the four relay pins high. -/
theorem c4_reconnect_reports_off_witness :
    (exDisc.connected = false ∧ reconnectRun exDisc [true] = (exDisc2, true))
    ∧ (reconnectRun exDisc [true]).1.pins = exDisc.pins
    ∧ exDisc2.published = exDisc.published ++ fourOffStatus exDisc.deviceName exDisc.time
    ∧ ((setup (fun _ => Level.LOW) "esp32-device" "cid").pins Relay_00_Pin = Level.HIGH
       ∧ (setup (fun _ => Level.LOW) "esp32-device" "cid").pins Relay_01_Pin = Level.HIGH
       ∧ (setup (fun _ => Level.LOW) "esp32-device" "cid").pins Relay_02_Pin = Level.HIGH
       ∧ (setup (fun _ => Level.LOW) "esp32-device" "cid").pins Relay_03_Pin = Level.HIGH) :=
  ⟨⟨rfl, rfl⟩, c4_reconnect_reports_off_outputs_unchanged.1 exDisc [true],
   c4_reconnect_reports_off_outputs_unchanged.2.1 exDisc [true] exDisc2 rfl rfl,
   c4_reconnect_reports_off_outputs_unchanged.2.2 (fun _ => Level.LOW) "esp32-device" "cid"⟩

/-- Input for a connected loop iteration whose telemetry gate fires. -/
def exInp : LoopInput :=
  { time := 1700000001, now := 6000, stillConnected := true, attempts := [],
    inbound := [], temperature := 0, humidity := 0, pressure := 0 }

/-- C5: in every completed loop iteration, a telemetry message is published
if and only if `now - lastMessage > interval` holds strictly, and the
configured interval is 5000 ms. -/
theorem c5_telemetry_gate (s : MachineState) (inp : LoopInput)
    (h : (loopStep s inp).isSome = true) :
    telemetryCount ((loopStep s inp).getD s).published
        = telemetryCount s.published
          + (if inp.now - s.lastMessage > interval then 1 else 0)
    ∧ interval = 5000 := by
  refine ⟨?_, rfl⟩
  obtain ⟨s2, hs2⟩ := Option.isSome_iff_exists.1 h
  rw [hs2, Option.getD_some]
  obtain ⟨sb, hcc, hcl, hct, hif⟩ := loopStep_shape s inp s2 hs2
  have hct2 : telemetryCount sb.published = telemetryCount s.published := by
    rw [telemetryCount, hct, telemetryCount]
  by_cases hg : inp.now - s.lastMessage > interval
  · rw [if_pos hg] at hif ⊢
    subst hif
    rw [telemetryCount, publishMsg]
    dsimp only
    rw [telemetryCounters_append_telemetry, List.length_append, ← telemetryCount, hct2]
    rfl
  · rw [if_neg hg] at hif ⊢
    subst hif
    rw [hct2]
    rfl

/-- Witness for C5: a connected iteration with `now - lastMessage = 6000`
publishes exactly one telemetry message. -/
theorem c5_telemetry_gate_witness :
    (loopStep exState exInp).isSome = true
    ∧ (telemetryCount ((loopStep exState exInp).getD exState).published
        = telemetryCount exState.published
          + (if exInp.now - exState.lastMessage > interval then 1 else 0)
       ∧ interval = 5000) :=
  ⟨rfl, c5_telemetry_gate exState exInp rfl⟩

/-- A completed loop iteration preserves the sequence-counter invariant:
the telemetry counters published so far are exactly 1, 2, ..., counter. -/
theorem loopStep_counter_invariant (s : MachineState) (inp : LoopInput)
    (s2 : MachineState) (h : loopStep s inp = some s2)
    (hP : telemetryCounters s.published = List.range' 1 s.counter) :
    telemetryCounters s2.published = List.range' 1 s2.counter := by
  obtain ⟨sb, hcc, hcl, hct, hif⟩ := loopStep_shape s inp s2 h
  by_cases hg : inp.now - s.lastMessage > interval
  · rw [if_pos hg] at hif
    subst hif
    rw [publishMsg]
    dsimp only
    rw [telemetryCounters_append_telemetry]
    dsimp only
    rw [hct, hcc, hP]
    rw [List.range'_concat]
    simp [Nat.add_comm]
  · rw [if_neg hg] at hif
    subst hif
    rw [hct, hcc, hP]

/-- A completed run of loop iterations preserves the sequence-counter
invariant. -/
theorem runLoop_counter_invariant (inputs : List LoopInput) :
    ∀ s s2 : MachineState, runLoop s inputs = some s2 →
      telemetryCounters s.published = List.range' 1 s.counter →
      telemetryCounters s2.published = List.range' 1 s2.counter := by
  induction inputs with
  | nil =>
    intro s s2 h hP
    rw [runLoop, Option.some_inj] at h
    subst h
    exact hP
  | cons inp rest ih =>
    intro s s2 h hP
    rw [runLoop] at h
    rcases hls : loopStep s inp with _ | s1
    · rw [hls] at h
      simp at h
    · rw [hls] at h
      exact ih s1 s2 h (loopStep_counter_invariant s inp s1 hls hP)

/-- C6: the telemetry sequence counter increases by exactly 1 on each
telemetry publish and stays put otherwise (so it never decreases), and in
every completed run from `setup()` the counter carried by the k-th
published telemetry message is k (the counter starts at 0 and is
pre-incremented before each publish). -/
theorem c6_sequence_counter :
    (∀ (s : MachineState) (inp : LoopInput) (s2 : MachineState),
        loopStep s inp = some s2 →
          (s2.counter = s.counter
            ∧ telemetryCount s2.published = telemetryCount s.published)
          ∨ (s2.counter = s.counter + 1
            ∧ telemetryCount s2.published = telemetryCount s.published + 1))
    ∧ (∀ (p0 : Nat → Level) (dn cid : String) (inputs : List LoopInput)
        (s2 : MachineState),
        runLoop (setup p0 dn cid) inputs = some s2 →
          telemetryCounters s2.published = List.range' 1 s2.counter) := by
  constructor
  · intro s inp s2 h
    obtain ⟨sb, hcc, hcl, hct, hif⟩ := loopStep_shape s inp s2 h
    have hct2 : telemetryCount sb.published = telemetryCount s.published := by
      rw [telemetryCount, hct, telemetryCount]
    by_cases hg : inp.now - s.lastMessage > interval
    · rw [if_pos hg] at hif
      subst hif
      right
      constructor
      · rw [publishMsg]
        dsimp only
        rw [hcc]
      · rw [telemetryCount, publishMsg]
        dsimp only
        rw [telemetryCounters_append_telemetry, List.length_append, ← telemetryCount, hct2]
        rfl
    · rw [if_neg hg] at hif
      subst hif
      exact Or.inl ⟨hcc, hct2⟩
  · intro p0 dn cid inputs s2 h
    exact runLoop_counter_invariant inputs (setup p0 dn cid) s2 h rfl

/-- Witness for C6: one fired iteration increments the counter by one, and
a run over no inputs satisfies the counter-trace invariant. -/
theorem c6_sequence_counter_witness :
    (loopStep exState exInp = some ((loopStep exState exInp).getD exState)
     ∧ ((((loopStep exState exInp).getD exState).counter = exState.counter
          ∧ telemetryCount ((loopStep exState exInp).getD exState).published
              = telemetryCount exState.published)
        ∨ (((loopStep exState exInp).getD exState).counter = exState.counter + 1
          ∧ telemetryCount ((loopStep exState exInp).getD exState).published
              = telemetryCount exState.published + 1)))
    ∧ (runLoop (setup (fun _ => Level.HIGH) "esp32-device" "cid") []
        = some (setup (fun _ => Level.HIGH) "esp32-device" "cid")
       ∧ telemetryCounters (setup (fun _ => Level.HIGH) "esp32-device" "cid").published
          = List.range' 1 (setup (fun _ => Level.HIGH) "esp32-device" "cid").counter) :=
  ⟨⟨rfl, c6_sequence_counter.1 exState exInp _ rfl⟩,
   ⟨rfl, c6_sequence_counter.2 (fun _ => Level.HIGH) "esp32-device" "cid" [] _ rfl⟩⟩

/-- C7: every status publish for relay id i in 0..3 goes to that relay's
dedicated topic and carries a status document whose fields are exactly
deviceName = the configured device name, time = the current epoch reading,
relayId = i, and status = the mirror value "0"/"1" that was passed; the
serialized JSON text decodes back to exactly those four fields. -/
theorem c7_status_publish (s : MachineState) (i : Int) (st : String)
    (hi : i = 0 ∨ i = 1 ∨ i = 2 ∨ i = 3)
    (hst : st = relay_status_on ∨ st = relay_status_off) :
    update_relay_status s i st
        = publishMsg s (relayStatusTopic i)
            (Payload.status
              { deviceName := s.deviceName, time := s.time, relayId := i, status := st })
    ∧ decodeStatusFields (serializeStatusChars
          { deviceName := s.deviceName, time := s.time, relayId := i, status := st })
        = some (s.deviceName, s.time, i, st) := by
  constructor
  · rcases hi with rfl | rfl | rfl | rfl <;>
      rcases hst with rfl | rfl <;>
        simp [update_relay_status, relayStatusTopic, Relay_00, Relay_01, Relay_02, Relay_03]
  · exact decodeStatusFields_serialize _

/-- Witness for C7: the status publish for relay 2 with mirror value "1". -/
theorem c7_status_publish_witness :
    ((2 : Int) = 0 ∨ (2 : Int) = 1 ∨ (2 : Int) = 2 ∨ (2 : Int) = 3)
    ∧ (relay_status_on = relay_status_on ∨ relay_status_on = relay_status_off)
    ∧ (update_relay_status exState 2 relay_status_on
        = publishMsg exState (relayStatusTopic 2)
            (Payload.status
              { deviceName := exState.deviceName, time := exState.time,
                relayId := 2, status := relay_status_on })
       ∧ decodeStatusFields (serializeStatusChars
            { deviceName := exState.deviceName, time := exState.time,
              relayId := 2, status := relay_status_on })
          = some (exState.deviceName, exState.time, 2, relay_status_on)) :=
  ⟨by decide, Or.inl rfl,
   c7_status_publish exState 2 relay_status_on (by decide) (Or.inl rfl)⟩

/-- C10: `update_relay_status` with a relay id outside 0..3 publishes
nothing at all (the topic `switch` has no `default`), and every call site
in the program passes an id in 0..3, so a publish actually happens there:
each recognized command publishes exactly one message and the reconnect
success branch publishes exactly four. -/
theorem c10_switch_no_default :
    (∀ (s : MachineState) (i : Int) (st : String),
        ¬(i = 0 ∨ i = 1 ∨ i = 2 ∨ i = 3) → update_relay_status s i st = s)
    ∧ (∀ (s : MachineState) (msg : String), msg ∈ validTokens →
        (callback s topic_command msg).published.length = s.published.length + 1)
    ∧ (∀ s : MachineState,
        (onConnectSuccess s).published.length = s.published.length + 4) := by
  refine ⟨?_, ?_, ?_⟩
  · intro s i st hi
    push_neg at hi
    obtain ⟨h0, h1, h2, h3⟩ := hi
    simp [update_relay_status, Relay_00, Relay_01, Relay_02, Relay_03, h0, h1, h2, h3]
  · intro s msg hmsg
    simp only [validTokens, List.mem_cons, List.not_mem_nil, or_false] at hmsg
    rcases hmsg with rfl | rfl | rfl | rfl | rfl | rfl | rfl | rfl <;>
      simp [callback, update_relay_status, digitalWrite, publishMsg, topic_command,
        RELAY_00_COMMAND_ON, RELAY_00_COMMAND_OFF, RELAY_01_COMMAND_ON, RELAY_01_COMMAND_OFF,
        RELAY_02_COMMAND_ON, RELAY_02_COMMAND_OFF, RELAY_03_COMMAND_ON, RELAY_03_COMMAND_OFF,
        Relay_00, Relay_01, Relay_02, Relay_03]
  · intro s
    rw [onConnectSuccess_spec]
    simp [fourOffStatus]

/-- Witness for C10: relay id 7 publishes nothing; "relay 2 on" publishes
exactly one message; the reconnect success branch publishes exactly four. -/
theorem c10_switch_no_default_witness :
    ¬((7 : Int) = 0 ∨ (7 : Int) = 1 ∨ (7 : Int) = 2 ∨ (7 : Int) = 3)
    ∧ update_relay_status exState 7 relay_status_on = exState
    ∧ (RELAY_02_COMMAND_ON ∈ validTokens
       ∧ (callback exState topic_command RELAY_02_COMMAND_ON).published.length
          = exState.published.length + 1)
    ∧ (onConnectSuccess exState).published.length = exState.published.length + 4 :=
  ⟨by decide, c10_switch_no_default.1 exState 7 relay_status_on (by decide),
   ⟨by decide, c10_switch_no_default.2.1 exState RELAY_02_COMMAND_ON (by decide)⟩,
   c10_switch_no_default.2.2 exState⟩

/-- A status document whose serialized text overflows the 200-byte output
buffer of `update_relay_status` (the device name alone is 250 chars). -/
def c9LongMsg : StatusMessage :=
  { deviceName := String.mk (List.replicate 250 'a'), time := 1700000000,
    relayId := 2, status := "1" }

set_option maxRecDepth 4000 in
/-- Counterexample to C9 as stated: serializing this StatusMessage through
the sketch's fixed 200-byte buffer truncates the JSON text, and decoding
the truncated text does not recover the deviceName, relayId, status
triple (it fails outright). -/
theorem c9_roundtrip_counterexample :
    decodeStatusTriple (serializeStatusBuffered c9LongMsg)
      ≠ some (c9LongMsg.deviceName, c9LongMsg.relayId, c9LongMsg.status) := by
  decide

/-- C9 (amended): for every StatusMessage whose serialized JSON text fits
the 200-byte buffer (length at most 199, which holds for all messages the
sketch builds with a reasonably sized device name), serializing and then
decoding recovers exactly the original {deviceName, relayId, status}
triple. -/
theorem c9_roundtrip_within_buffer (m : StatusMessage)
    (h : (serializeStatusChars m).length ≤ 199) :
    decodeStatusTriple (serializeStatusBuffered m)
      = some (m.deviceName, m.relayId, m.status) := by
  rw [serializeStatusBuffered, List.take_of_length_le h, decodeStatusTriple,
    decodeStatusFields_serialize]
  rfl

/-- A small status document that fits the buffer. -/
def exMsg : StatusMessage :=
  { deviceName := "esp32-device", time := 1700000000, relayId := 2, status := "1" }

/-- Witness for C9 (amended): a concrete in-buffer message round-trips. -/
theorem c9_roundtrip_within_buffer_witness :
    (serializeStatusChars exMsg).length ≤ 199
    ∧ decodeStatusTriple (serializeStatusBuffered exMsg)
        = some (exMsg.deviceName, exMsg.relayId, exMsg.status) :=
  ⟨by decide, c9_roundtrip_within_buffer exMsg (by decide)⟩
